import Mathlib

/-!
Shallow embedding of the certificate lifecycle and signing manager of the
AuraFiscal repository (src/src/utils/certificate.py) and of the Railway
bootstrap step (src/railway_init.py), together with theorems settling the
specification claims about them.

Modelling conventions:
* timestamps are UTC epoch seconds carried as `Int` (Python's timezone-aware
  `datetime` objects compare exactly like their epoch instants);
* raised Python exceptions become `Except.error` values;
* calls into the `cryptography` library (PKCS12 parsing, RSA signing, PEM
  serialisation) are modelled by explicit outcome values or by executable
  stand-ins that record exactly the data the source hands them;
* the ambient clock read `datetime.now(timezone.utc)` becomes an explicit
  `now : Int` argument threaded to each operation that reads the clock.
-/

/-- UTC instant, epoch seconds. -/
abbrev Time := Int

/-- The fields of an X.509 certificate that certificate.py reads.
`subjectCN` and `issuerCN` are the (optional) CommonName attributes of the
subject and issuer names; `publicBytes` is the DER encoding used by
`public_bytes`. -/
structure Cert where
  subjectCN : Option String
  issuerCN : Option String
  serial_number : Nat
  not_valid_before_utc : Time
  not_valid_after_utc : Time
  publicBytes : List Nat
deriving Repr, DecidableEq

/-- Private-key material as held by the manager (the DER bytes the
`cryptography` key object wraps). -/
structure PrivateKey where
  keyBytes : List Nat
deriving Repr, DecidableEq

/-- The mutable state of a `CertificateManager` instance:
`cert_path`, `password`, `_certificate`, `_private_key`. -/
structure ManagerState where
  cert_path : String
  password : String
  certificate : Option Cert
  private_key : Option PrivateKey
deriving Repr, DecidableEq

/-- Python exceptions surfaced by the embedded operations. -/
inductive PyError where
  | valueError (msg : String)
  | indexError
  | attributeError (name : String)
deriving Repr, DecidableEq

/-- Outcome of the body of `_load_certificate` up to and including the
`pkcs12.load_key_and_certificates` call: the file read can raise, the PKCS12
parse can raise (bad container or wrong password), or the parse succeeds and
yields an optional private key and an optional certificate (the
`cryptography` library returns `None` for a component the container lacks;
additional chain certificates are ignored by the source). -/
inductive LoadOutcome where
  | fileError (msg : String)
  | parseError (msg : String)
  | parsed (key : Option PrivateKey) (cert : Option Cert)
deriving Repr, DecidableEq

/-- True on the outcomes in which `_load_certificate`'s try-block raises. -/
def LoadOutcome.isFailure : LoadOutcome → Bool
  | .fileError _ => true
  | .parseError _ => true
  | .parsed _ _ => false

/-- CertificateManager._load_certificate: on a successful parse it stores the
returned certificate and private key into the manager's fields; on any raised
exception it logs, re-raises `ValueError`, and performs no field update. The
returned pair is (raised-or-unit, state after the call). -/
def load_certificate (s : ManagerState) (o : LoadOutcome) :
    Except PyError Unit × ManagerState :=
  match o with
  | .fileError m => (.error (.valueError ("Falha ao carregar certificado: " ++ m)), s)
  | .parseError m => (.error (.valueError ("Falha ao carregar certificado: " ++ m)), s)
  | .parsed k c => (.ok (), { s with certificate := c, private_key := k })

/-- CertificateManager.__init__: fields start at `None`; when the configured
path exists the constructor runs `_load_certificate` (whose exception, if
any, propagates out of the constructor). -/
def init_manager (cert_path password : String) (pathExists : Bool)
    (o : LoadOutcome) : Except PyError ManagerState :=
  let s : ManagerState :=
    { cert_path := cert_path, password := password,
      certificate := none, private_key := none }
  if pathExists then
    match load_certificate s o with
    | (.ok _, s2) => .ok s2
    | (.error e, _) => .error e
  else
    .ok s

/-- CertificateManager.is_valid: `False` when no certificate is loaded,
otherwise `not_before <= now <= not_after` against the UTC clock. -/
def is_valid (s : ManagerState) (now : Time) : Bool :=
  match s.certificate with
  | none => false
  | some c => decide (c.not_valid_before_utc ≤ now ∧ now ≤ c.not_valid_after_utc)

/-- CertificateManager.get_subject_name: placeholder text when unloaded or
when the subject has no CommonName attribute. -/
def get_subject_name (s : ManagerState) : String :=
  match s.certificate with
  | none => "Certificado não carregado"
  | some c => c.subjectCN.getD "Nome não encontrado"

/-- CertificateManager.get_expiration_date. -/
def get_expiration_date (s : ManagerState) : Option Time :=
  match s.certificate with
  | none => none
  | some c => some c.not_valid_after_utc

/-- Left-pad a natural number with zeros to the given width. -/
def padNat (width n : Nat) : String :=
  let t := toString n
  if t.length < width then String.mk (List.replicate (width - t.length) '0') ++ t
  else t

/-- Gregorian civil date (year, month, day) from days since the Unix epoch
(the standard era-based conversion, matching Python's proleptic Gregorian
calendar). -/
def civilFromDays (z0 : Int) : Int × Nat × Nat :=
  let z : Int := z0 + 719468
  let era : Int := Int.fdiv z 146097
  let doe : Nat := (z - era * 146097).toNat
  let yoe : Nat := (doe - doe / 1460 + doe / 36524 - doe / 146096) / 365
  let doy : Nat := doe - (365 * yoe + yoe / 4 - yoe / 100)
  let mp : Nat := (5 * doy + 2) / 153
  let d : Nat := doy - (153 * mp + 2) / 5 + 1
  let m : Nat := if mp < 10 then mp + 3 else mp - 9
  let y : Int := (yoe : Int) + era * 400
  (if m ≤ 2 then y + 1 else y, m, d)

/-- ISO-8601 text of an aware UTC datetime with whole seconds, as produced by
Python's `datetime.isoformat()` (for example "2024-01-01T00:00:00+00:00"). -/
def isoformatUTC (t : Time) : String :=
  let days : Int := Int.fdiv t 86400
  let secs : Nat := (t - days * 86400).toNat
  let ymd := civilFromDays days
  let y := ymd.1
  let yearText := if y < 0 then "-" ++ padNat 4 (-y).toNat else padNat 4 y.toNat
  yearText ++ "-" ++ padNat 2 ymd.2.1 ++ "-" ++ padNat 2 ymd.2.2 ++
    "T" ++ padNat 2 (secs / 3600) ++ ":" ++ padNat 2 (secs % 3600 / 60) ++
    ":" ++ padNat 2 (secs % 60) ++ "+00:00"

/-- The value `get_certificate_info` builds when a certificate is loaded (the
keys of the Python dict). -/
structure CertInfo where
  subject : String
  issuer : String
  serialText : String
  valid_from : String
  valid_until : String
  validFlag : Bool
  days_until_expiration : Int
deriving Repr, DecidableEq

/-- Successful results of `get_certificate_info`: either the not-loaded
status dictionary or the full information dictionary. -/
inductive InfoResult where
  | statusNotLoaded (status : String)
  | info (i : CertInfo)
deriving Repr, DecidableEq

/-- CertificateManager.get_certificate_info: with no certificate it returns
the status dictionary (it does not raise); with a certificate it builds the
full dictionary, where reading the issuer CommonName indexes `[0]` into the
attribute list and raises `IndexError` when the issuer has no CommonName.
`days_until_expiration` is Python's `timedelta.days`, a floor division of the
remaining seconds by 86400. -/
def get_certificate_info (s : ManagerState) (now : Time) :
    Except PyError InfoResult :=
  match s.certificate with
  | none => .ok (.statusNotLoaded "Certificado não carregado")
  | some c =>
    match c.issuerCN with
    | none => .error .indexError
    | some icn =>
      .ok (.info
        { subject := get_subject_name s
          issuer := icn
          serialText := toString c.serial_number
          valid_from := isoformatUTC c.not_valid_before_utc
          valid_until := isoformatUTC c.not_valid_after_utc
          validFlag := is_valid s now
          days_until_expiration :=
            Int.fdiv (c.not_valid_after_utc - now) 86400 })

/-- RSA signature padding schemes the source can name. -/
inductive RsaPadding where
  | pkcs1v15
deriving Repr, DecidableEq

/-- Digest algorithms the source can name. -/
inductive HashAlg where
  | sha256
deriving Repr, DecidableEq

/-- An RSA signature as handed back by `private_key.sign(data, padding,
hash)`: it records the key used, the padding, the digest algorithm applied to
the message, and the message bytes. -/
structure Signature where
  key : PrivateKey
  pad : RsaPadding
  hashAlg : HashAlg
  message : List Nat
deriving Repr, DecidableEq

/-- CertificateManager.sign_data: raises when `_private_key` is absent, then
raises when `is_valid()` is false, then signs with PKCS#1 v1.5 padding over a
SHA-256 digest of the input bytes. -/
def sign_data (s : ManagerState) (now : Time) (data : List Nat) :
    Except PyError Signature :=
  match s.private_key with
  | none => .error (.valueError "Chave privada não carregada")
  | some k =>
    if is_valid s now then
      .ok { key := k, pad := .pkcs1v15, hashAlg := .sha256, message := data }
    else
      .error (.valueError "Certificado fora da validade")

/-- The base64 alphabet. -/
def b64Chars : List Char :=
  "ABCDEFGHIJKLMNOPQRSTUVWXYZabcdefghijklmnopqrstuvwxyz0123456789+/".toList

/-- Character of the base64 alphabet at the given index. -/
def b64CharAt (n : Nat) : Char := b64Chars.getD n '?'

/-- Base64 encoding of a byte list, with '=' padding. -/
def b64EncodeGroups : List Nat → List Char
  | [] => []
  | [a] => [b64CharAt (a / 4), b64CharAt (a % 4 * 16), '=', '=']
  | [a, b] => [b64CharAt (a / 4), b64CharAt (a % 4 * 16 + b / 16),
               b64CharAt (b % 16 * 4), '=']
  | a :: b :: c :: rest =>
      b64CharAt (a / 4) :: b64CharAt (a % 4 * 16 + b / 16) ::
      b64CharAt (b % 16 * 4 + c / 64) :: b64CharAt (c % 64) ::
      b64EncodeGroups rest

/-- Split a character list into lines of 64, with fuel for termination. -/
def wrapAux : Nat → List Char → List (List Char)
  | 0, _ => []
  | _, [] => []
  | n + 1, cs => cs.take 64 :: wrapAux n (cs.drop 64)

/-- PEM body line wrapping at 64 characters. -/
def wrap64 (cs : List Char) : List (List Char) := wrapAux cs.length cs

/-- PEM encoding of DER bytes under the given header label. -/
def pemEncode (header : String) (bytes : List Nat) : String :=
  "-----BEGIN " ++ header ++ "-----\n" ++
  String.join ((wrap64 (b64EncodeGroups bytes)).map (fun l => String.mk l ++ "\n")) ++
  "-----END " ++ header ++ "-----\n"

/-- CertificateManager.get_certificate_pem: raises `ValueError` when no
certificate is loaded, otherwise the PEM text of the certificate. -/
def get_certificate_pem (s : ManagerState) : Except PyError String :=
  match s.certificate with
  | none => .error (.valueError "Certificado não carregado")
  | some c => .ok (pemEncode "CERTIFICATE" c.publicBytes)

/-- CertificateManager.get_private_key_pem: raises `ValueError` when no
private key is loaded, otherwise the unencrypted TraditionalOpenSSL PEM text
of the key. -/
def get_private_key_pem (s : ManagerState) : Except PyError String :=
  match s.private_key with
  | none => .error (.valueError "Chave privada não carregada")
  | some k => .ok (pemEncode "RSA PRIVATE KEY" k.keyBytes)

/-- CertificateManager.get_cert_and_key_files: creates two temp files and
writes the two PEM texts into them; an exception from either PEM accessor
propagates. The temp paths are supplied by the temp-file primitive; the
returned pair carries the written contents. -/
def get_cert_and_key_files (s : ManagerState) (certPathArg keyPathArg : String) :
    Except PyError ((String × String) × (String × String)) :=
  match get_certificate_pem s with
  | .error e => .error e
  | .ok certPem =>
    match get_private_key_pem s with
    | .error e => .error e
    | .ok keyPem => .ok ((certPathArg, certPem), (keyPathArg, keyPem))

/-- The methods the `CertificateManager` class defines (its class dictionary
in src/src/utils/certificate.py). -/
def certificateManagerMethods : List String :=
  ["__init__", "_load_certificate", "is_valid", "get_subject_name",
   "get_expiration_date", "get_certificate_info", "sign_data",
   "get_certificate_pem", "get_private_key_pem", "get_cert_and_key_files"]

/-- Python attribute lookup on a `CertificateManager` instance: a name the
class does not define raises `AttributeError`. -/
def lookupManagerAttribute (name : String) : Except PyError Unit :=
  if certificateManagerMethods.contains name then .ok ()
  else .error (.attributeError name)

/-- Everything `setup_certificates` in src/railway_init.py observes: whether
the two target files already exist, the two environment variables, the
behaviour of `base64.b64decode` on each input (`none` models the raise on
invalid base64), and whether each `write_bytes` call succeeds. -/
structure BootWorld where
  certPemExists : Bool
  keyPemExists : Bool
  certEnv : Option String
  keyEnv : Option String
  b64decode : String → Option (List Nat)
  certWriteOk : Bool
  keyWriteOk : Bool

/-- The file writes and the chmod that `setup_certificates` performs. -/
structure BootFS where
  certPemWritten : Option (List Nat)
  keyPemWritten : Option (List Nat)
  keyChmod600 : Bool
deriving Repr, DecidableEq

/-- The filesystem effect of a run that wrote nothing. -/
def noWrites : BootFS :=
  { certPemWritten := none, keyPemWritten := none, keyChmod600 := false }

/-- Python truthiness of `os.getenv`'s result: `None` and the empty string
are falsy. -/
def envTruthy : Option String → Bool
  | none => false
  | some t => !t.isEmpty

/-- setup_certificates of src/railway_init.py: returns `True` at once when
both target files exist; otherwise, when both environment variables are
truthy, decodes and writes cert.pem, then decodes and writes key.pem and
chmods it 0600, returning `True`, with any exception in that block caught
and turned into `False`; when either variable is missing it prints and
returns `False`. The result pairs the returned boolean with the writes
performed. -/
def setup_certificates (w : BootWorld) : Bool × BootFS :=
  if w.certPemExists && w.keyPemExists then
    (true, noWrites)
  else
    if envTruthy w.certEnv && envTruthy w.keyEnv then
      match w.b64decode (w.certEnv.getD "") with
      | none => (false, noWrites)
      | some certContent =>
        if !w.certWriteOk then (false, noWrites)
        else
          let fs1 : BootFS :=
            { certPemWritten := some certContent, keyPemWritten := none,
              keyChmod600 := false }
          match w.b64decode (w.keyEnv.getD "") with
          | none => (false, fs1)
          | some keyContent =>
            if !w.keyWriteOk then (false, fs1)
            else
              (true, { certPemWritten := some certContent,
                       keyPemWritten := some keyContent,
                       keyChmod600 := true })
    else
      (false, noWrites)

/-- Run a sequence of `_load_certificate` calls (each with its parse
outcome) against a manager state, keeping the state each call leaves behind
whether it raises or not. -/
def run_loads (s : ManagerState) : List LoadOutcome → ManagerState
  | [] => s
  | o :: os => run_loads (load_certificate s o).2 os

/-- True when a parse outcome yields its key and certificate together or not
at all (failed parses count as balanced, since they update nothing). -/
def outcomeBalanced : LoadOutcome → Bool
  | .parsed k c => k.isSome == c.isSome
  | _ => true

/-- A fresh manager state as `__init__` builds it before any load. -/
def freshState (cert_path password : String) : ManagerState :=
  { cert_path := cert_path, password := password,
    certificate := none, private_key := none }

/-- Concrete sample key material. -/
def sampleKey : PrivateKey := { keyBytes := [48, 130, 4, 164] }

/-- Concrete sample certificate: subject CN "ACME LTDA", validity
2024-01-01T00:00:00Z to 2026-01-01T00:00:00Z. -/
def sampleCert : Cert :=
  { subjectCN := some "ACME LTDA", issuerCN := some "AC Exemplo"
    serial_number := 123456789
    not_valid_before_utc := 1704067200
    not_valid_after_utc := 1767225600
    publicBytes := [48, 130, 3, 40] }

/-- A sample certificate whose issuer name has no CommonName attribute. -/
def sampleCertNoIssuerCN : Cert :=
  { sampleCert with issuerCN := none }

/-- A manager state holding the sample certificate and key. -/
def loadedSampleState : ManagerState :=
  { cert_path := "certificados/certificado.pfx", password := "test123"
    certificate := some sampleCert, private_key := some sampleKey }

/-- C1: every failing `_load_certificate` call (wrong password, unreadable
container, unreadable file) raises a `ValueError` and leaves the manager
state exactly as it was: a prior loaded record and key are preserved in
full, and a previously unloaded manager keeps both fields absent. -/
theorem c1_load_failure_preserves_state (s : ManagerState) (o : LoadOutcome)
    (h : o.isFailure = true) :
    (∃ e, (load_certificate s o).1 = Except.error e) ∧
      (load_certificate s o).2 = s := by
  cases o with
  | fileError m => exact ⟨⟨_, rfl⟩, rfl⟩
  | parseError m => exact ⟨⟨_, rfl⟩, rfl⟩
  | parsed k c => simp [LoadOutcome.isFailure] at h

/-- Witness for C1: a wrong-password parse failure against a loaded manager
raises and preserves the loaded state. -/
theorem c1_witness :
    (LoadOutcome.parseError "Invalid password or PKCS12 data").isFailure = true ∧
    ((∃ e, (load_certificate loadedSampleState
      (LoadOutcome.parseError "Invalid password or PKCS12 data")).1 =
        Except.error e) ∧
      (load_certificate loadedSampleState
        (LoadOutcome.parseError "Invalid password or PKCS12 data")).2 =
          loadedSampleState) :=
  ⟨rfl, c1_load_failure_preserves_state loadedSampleState
    (LoadOutcome.parseError "Invalid password or PKCS12 data") rfl⟩

/-- C2: `sign_data` raises the key-not-loaded `ValueError` whenever the
private key is absent, with no other check consulted first, and raises the
certificate-expired `ValueError` whenever the key and certificate are
present but the clock is outside the validity window. -/
theorem c2_sign_check_order (s : ManagerState) (now : Time) (data : List Nat) :
    (s.private_key = none →
      sign_data s now data =
        Except.error (PyError.valueError "Chave privada não carregada")) ∧
    (∀ k c, s.private_key = some k → s.certificate = some c →
      ¬(c.not_valid_before_utc ≤ now ∧ now ≤ c.not_valid_after_utc) →
      sign_data s now data =
        Except.error (PyError.valueError "Certificado fora da validade")) := by
  constructor
  · intro h
    simp [sign_data, h]
  · intro k c hk hc hw
    have hv : is_valid s now = false := by
      simp only [is_valid, hc, decide_eq_false_iff_not]
      exact hw
    simp [sign_data, hk, hv]

/-- Witness for C2: the unloaded manager reports the key as not loaded, and
the loaded sample manager reports expiry at a clock past `not_after`. -/
theorem c2_witness :
    sign_data (freshState "certificados/certificado.pfx" "test123")
        1735689600 [1, 2, 3] =
      Except.error (PyError.valueError "Chave privada não carregada") ∧
    sign_data loadedSampleState 1800000000 [1, 2, 3] =
      Except.error (PyError.valueError "Certificado fora da validade") := by
  constructor
  · exact (c2_sign_check_order (freshState "certificados/certificado.pfx"
      "test123") 1735689600 [1, 2, 3]).1 rfl
  · exact (c2_sign_check_order loadedSampleState 1800000000 [1, 2, 3]).2
      sampleKey sampleCert rfl rfl (by decide)

/-- C3 (code bug in the source): the `CertificateManager` class defines no
`reload` method at all, so the `certificate_manager.reload()` call made by
`main` in railway_init.py raises `AttributeError` instead of returning a
boolean — the claimed never-raising reload operation does not exist. -/
theorem c3_reload_method_missing :
    certificateManagerMethods.contains "reload" = false ∧
      lookupManagerAttribute "reload" =
        Except.error (PyError.attributeError "reload") := by
  constructor
  · rfl
  · rfl

/-- C4 counterexample: a successful PKCS12 parse that yields a private key
and no certificate (the library returns `None` for an absent component, and
`_load_certificate` stores both results unchecked) drives a fresh manager
into a state with the key present and the record absent. -/
theorem c4_counterexample :
    (load_certificate (freshState "certificados/certificado.pfx" "test123")
        (LoadOutcome.parsed (some sampleKey) none)).2.private_key =
      some sampleKey ∧
    (load_certificate (freshState "certificados/certificado.pfx" "test123")
        (LoadOutcome.parsed (some sampleKey) none)).2.certificate = none :=
  ⟨rfl, rfl⟩

/-- C4 (amended): starting from any state where key and record are present
together or absent together, any sequence of loads whose successful parses
each yield the key and certificate together (or neither) preserves the
invariant that the key is present iff the record is present; construction
starts in such a state and the read operations never mutate it. -/
theorem c4_key_record_invariant (s : ManagerState) (trace : List LoadOutcome)
    (hs : s.private_key.isSome = s.certificate.isSome)
    (h : ∀ o ∈ trace, outcomeBalanced o = true) :
    (run_loads s trace).private_key.isSome =
      (run_loads s trace).certificate.isSome := by
  induction trace generalizing s with
  | nil => exact hs
  | cons o os ih =>
    simp only [run_loads]
    apply ih
    · cases o with
      | fileError m => exact hs
      | parseError m => exact hs
      | parsed k c =>
        have hb := h (LoadOutcome.parsed k c) (List.mem_cons_self _ _)
        simp only [outcomeBalanced, beq_iff_eq] at hb
        exact hb
    · intro o2 ho2
      exact h o2 (List.mem_cons_of_mem _ ho2)

/-- Witness for C4 (amended): a fresh manager followed by a balanced
successful load and a failed load keeps key and record in step. -/
theorem c4_witness :
    ((freshState "certificados/certificado.pfx" "test123").private_key.isSome =
      (freshState "certificados/certificado.pfx" "test123").certificate.isSome) ∧
    (run_loads (freshState "certificados/certificado.pfx" "test123")
        [LoadOutcome.parsed (some sampleKey) (some sampleCert),
         LoadOutcome.parseError "mac verify failure"]).private_key.isSome =
      (run_loads (freshState "certificados/certificado.pfx" "test123")
        [LoadOutcome.parsed (some sampleKey) (some sampleCert),
         LoadOutcome.parseError "mac verify failure"]).certificate.isSome := by
  refine ⟨rfl, ?_⟩
  exact c4_key_record_invariant
    (freshState "certificados/certificado.pfx" "test123")
    [LoadOutcome.parsed (some sampleKey) (some sampleCert),
     LoadOutcome.parseError "mac verify failure"] rfl (by decide)

/-- C5: with a certificate loaded, the validity check is a pure function of
the record bounds and the supplied clock instant, true exactly when
`not_before <= now <= not_after` (the clock read is modelled as the explicit
`now` argument). -/
theorem c5_validity_window (s : ManagerState) (c : Cert) (now : Time)
    (h : s.certificate = some c) :
    (is_valid s now = true ↔
      (c.not_valid_before_utc ≤ now ∧ now ≤ c.not_valid_after_utc)) := by
  simp [is_valid, h]

/-- Witness for C5: the sample certificate is reported valid at
2025-01-01T00:00:00Z, which lies inside its bounds. -/
theorem c5_witness :
    loadedSampleState.certificate = some sampleCert ∧
      is_valid loadedSampleState 1735689600 = true :=
  ⟨rfl, (c5_validity_window loadedSampleState sampleCert 1735689600 rfl).2
    (by decide)⟩

/-- C6: every signature `sign_data` returns is produced with PKCS#1 v1.5
padding over a SHA-256 digest of exactly the input bytes. -/
theorem c6_sign_scheme (s : ManagerState) (now : Time) (data : List Nat)
    (sig : Signature) (h : sign_data s now data = Except.ok sig) :
    sig.pad = RsaPadding.pkcs1v15 ∧ sig.hashAlg = HashAlg.sha256 ∧
      sig.message = data := by
  rcases hk : s.private_key with _ | k
  · simp [sign_data, hk] at h
  · rcases hv : is_valid s now
    · simp [sign_data, hk, hv] at h
    · simp only [sign_data, hk, hv, if_true, Except.ok.injEq] at h
      rw [← h]
      exact ⟨rfl, rfl, rfl⟩

/-- A concrete signature value for the C6 witness. -/
def sampleSignature : Signature :=
  { key := sampleKey, pad := RsaPadding.pkcs1v15, hashAlg := HashAlg.sha256,
    message := [10, 20] }

/-- Witness for C6: the signature the loaded sample manager produces at an
in-window clock uses PKCS#1 v1.5 with SHA-256 over the input. -/
theorem c6_witness :
    sampleSignature.pad = RsaPadding.pkcs1v15 ∧
      sampleSignature.hashAlg = HashAlg.sha256 ∧
      sampleSignature.message = [10, 20] :=
  c6_sign_scheme loadedSampleState 1735689600 [10, 20] sampleSignature rfl

/-- C7 counterexample: in the unloaded state the metadata operation
`get_certificate_info` returns a status dictionary (an ordinary value), it
does not fail with a not-loaded error as the claim states. -/
theorem c7_counterexample :
    get_certificate_info (freshState "certificados/certificado.pfx" "test123")
        1735689600 =
      Except.ok (InfoResult.statusNotLoaded "Certificado não carregado") := rfl

/-- C7 (amended): in the unloaded state every signing and export operation
raises the not-loaded `ValueError`, while the metadata operation instead
returns a status dictionary reporting that no certificate is loaded. -/
theorem c7_unloaded_operations (s : ManagerState) (now : Time)
    (data : List Nat) (hc : s.certificate = none) (hk : s.private_key = none) :
    sign_data s now data =
      Except.error (PyError.valueError "Chave privada não carregada") ∧
    get_certificate_pem s =
      Except.error (PyError.valueError "Certificado não carregado") ∧
    get_private_key_pem s =
      Except.error (PyError.valueError "Chave privada não carregada") ∧
    get_cert_and_key_files s "tmp_cert.pem" "tmp_key.pem" =
      Except.error (PyError.valueError "Certificado não carregado") ∧
    get_certificate_info s now =
      Except.ok (InfoResult.statusNotLoaded "Certificado não carregado") := by
  refine ⟨?_, ?_, ?_, ?_, ?_⟩ <;>
    simp [sign_data, get_certificate_pem, get_private_key_pem,
      get_cert_and_key_files, get_certificate_info, hc, hk]

/-- Witness for C7 (amended) at a concrete fresh manager. -/
theorem c7_witness :
    sign_data (freshState "certificados/certificado.pfx" "test123") 0 [1] =
      Except.error (PyError.valueError "Chave privada não carregada") ∧
    get_certificate_pem (freshState "certificados/certificado.pfx" "test123") =
      Except.error (PyError.valueError "Certificado não carregado") ∧
    get_private_key_pem (freshState "certificados/certificado.pfx" "test123") =
      Except.error (PyError.valueError "Chave privada não carregada") ∧
    get_cert_and_key_files (freshState "certificados/certificado.pfx" "test123")
        "tmp_cert.pem" "tmp_key.pem" =
      Except.error (PyError.valueError "Certificado não carregado") ∧
    get_certificate_info (freshState "certificados/certificado.pfx" "test123")
        0 =
      Except.ok (InfoResult.statusNotLoaded "Certificado não carregado") :=
  c7_unloaded_operations (freshState "certificados/certificado.pfx" "test123")
    0 [1] rfl rfl

/-- A loaded manager whose certificate's issuer name has no CommonName. -/
def loadedNoIssuerState : ManagerState :=
  { loadedSampleState with certificate := some sampleCertNoIssuerCN }

/-- C8 counterexample: with a certificate loaded whose issuer name has no
CommonName attribute, the metadata operation raises `IndexError` (the source
indexes `[0]` into the issuer's CommonName attribute list unguarded) instead
of returning the metadata dictionary. -/
theorem c8_counterexample :
    get_certificate_info loadedNoIssuerState 1735689600 =
      Except.error PyError.indexError := rfl

/-- C8 (amended): with a certificate loaded whose issuer name carries a
CommonName, the metadata operation returns the subject, the issuer CN, the
serial as decimal text, the two bounds as ISO-8601 UTC text, the validity
boolean for the supplied clock, and a floor-division days-until-expiration
that is negative whenever the clock is past `not_after`; the result is a
pure function of the record and the clock. -/
theorem c8_metadata_fields (s : ManagerState) (c : Cert) (icn : String)
    (now : Time) (hc : s.certificate = some c) (hi : c.issuerCN = some icn) :
    get_certificate_info s now = Except.ok (InfoResult.info
      { subject := c.subjectCN.getD "Nome não encontrado"
        issuer := icn
        serialText := toString c.serial_number
        valid_from := isoformatUTC c.not_valid_before_utc
        valid_until := isoformatUTC c.not_valid_after_utc
        validFlag :=
          decide (c.not_valid_before_utc ≤ now ∧ now ≤ c.not_valid_after_utc)
        days_until_expiration :=
          Int.fdiv (c.not_valid_after_utc - now) 86400 }) ∧
    (c.not_valid_after_utc < now →
      Int.fdiv (c.not_valid_after_utc - now) 86400 < 0) := by
  constructor
  · simp [get_certificate_info, hc, hi, get_subject_name, is_valid]
  · intro hlt
    have hd : c.not_valid_after_utc - now < 0 := sub_neg.mpr hlt
    have hb : (0 : Int) ≤ 86400 := by omega
    rw [Int.fdiv_eq_ediv (c.not_valid_after_utc - now) hb]
    exact Int.ediv_neg' hd (by omega)

/-- Witness for C8 (amended): the sample certificate's metadata at
2026-06-01T00:00:00Z, past its expiry, with concrete field values and a
negative days-until-expiration. -/
theorem c8_witness :
    get_certificate_info loadedSampleState 1780272000 =
      Except.ok (InfoResult.info
        { subject := "ACME LTDA"
          issuer := "AC Exemplo"
          serialText := "123456789"
          valid_from := "2024-01-01T00:00:00+00:00"
          valid_until := "2026-01-01T00:00:00+00:00"
          validFlag := false
          days_until_expiration := -151 }) ∧
      (-151 : Int) < 0 := by
  have h := c8_metadata_fields loadedSampleState sampleCert "AC Exemplo"
    1780272000 rfl rfl
  exact ⟨h.1, h.2 (by decide)⟩

/-- C9: when the two target files are not both already present, the
bootstrap step returns `False` whenever an environment variable is absent,
whenever a base64 decode raises, and whenever a file write raises; it
returns `True` only having written both files. -/
theorem c9_bootstrap_never_masks_failure (w : BootWorld)
    (hne : w.certPemExists = false ∨ w.keyPemExists = false) :
    ((w.certEnv = none ∨ w.keyEnv = none) →
      (setup_certificates w).1 = false) ∧
    (∀ cs ks, w.certEnv = some cs → w.keyEnv = some ks →
      (w.b64decode cs = none ∨ w.b64decode ks = none) →
      (setup_certificates w).1 = false) ∧
    (∀ cs ks, w.certEnv = some cs → w.keyEnv = some ks →
      (w.certWriteOk = false ∨ w.keyWriteOk = false) →
      (setup_certificates w).1 = false) ∧
    ((setup_certificates w).1 = true →
      (setup_certificates w).2.certPemWritten.isSome = true ∧
        (setup_certificates w).2.keyPemWritten.isSome = true) := by
  obtain ⟨ce, ke, cenv, kenv, dec, cw, kw⟩ := w
  have h0 : (ce && ke) = false := by
    rcases hne with h | h <;> simp_all
  refine ⟨?_, ?_, ?_, ?_⟩
  · rintro (h | h) <;> subst h <;>
      simp [setup_certificates, h0, envTruthy]
  · rintro cs ks hcs hks hd
    subst hcs; subst hks
    simp only at hd
    by_cases he : (!cs.isEmpty && !ks.isEmpty) = true
    · rcases h1 : dec cs with _ | cc
      · simp [setup_certificates, h0, envTruthy, he, h1]
      · rcases hd with hd | hd
        · rw [h1] at hd; exact Option.noConfusion hd
        · rcases hcw : cw
          · simp [setup_certificates, h0, envTruthy, he, h1, hcw]
          · simp [setup_certificates, h0, envTruthy, he, h1, hcw, hd]
    · simp [setup_certificates, h0, envTruthy, he]
  · rintro cs ks hcs hks hwf
    subst hcs; subst hks
    by_cases he : (!cs.isEmpty && !ks.isEmpty) = true
    · rcases h1 : dec cs with _ | cc
      · simp [setup_certificates, h0, envTruthy, he, h1]
      · rcases hwf with hwf | hwf <;> subst hwf
        · simp [setup_certificates, h0, envTruthy, he, h1]
        · rcases h2 : dec ks with _ | kc <;>
            rcases hcw : cw <;>
            simp [setup_certificates, h0, envTruthy, he, h1, h2, hcw]
    · simp [setup_certificates, h0, envTruthy, he]
  · intro ht
    constructor <;>
      · revert ht
        simp only [setup_certificates, h0, Bool.false_eq_true, if_false]
        by_cases he : (envTruthy cenv && envTruthy kenv) = true <;>
          simp only [he, if_true, if_false, Bool.false_eq_true]
        · rcases h1 : dec (cenv.getD "") with _ | cc
          · simp
          · rcases hcw : cw
            · simp
            · rcases h2 : dec (kenv.getD "") with _ | kc
              · simp
              · rcases hkw : kw <;> simp
        · simp

/-- A concrete bootstrap world for the C9 witness: no files, no environment
variables. -/
def bootWorldMissingEnv : BootWorld :=
  { certPemExists := false, keyPemExists := false, certEnv := none,
    keyEnv := none, b64decode := fun _ => none, certWriteOk := true,
    keyWriteOk := true }

/-- Witness for C9: with no files and no environment variables, the
bootstrap step reports failure. -/
theorem c9_witness :
    (setup_certificates bootWorldMissingEnv).1 = false :=
  (c9_bootstrap_never_masks_failure bootWorldMissingEnv (Or.inl rfl)).1
    (Or.inl rfl)

/-- C10: when both target files already exist the bootstrap step returns
`True` at once, writes nothing and changes no permissions, and its result is
identical whatever the environment variables, the decoder behaviour, and the
write outcomes are — so the environment is never consulted and the existing
files are never overwritten. -/
theorem c10_existing_files_short_circuit (w : BootWorld)
    (h1 : w.certPemExists = true) (h2 : w.keyPemExists = true) :
    setup_certificates w = (true, noWrites) ∧
    (∀ e1 e2 f cw2 kw2,
      setup_certificates
        { certPemExists := w.certPemExists, keyPemExists := w.keyPemExists,
          certEnv := e1, keyEnv := e2, b64decode := f,
          certWriteOk := cw2, keyWriteOk := kw2 } = (true, noWrites)) := by
  constructor
  · simp [setup_certificates, h1, h2]
  · intro e1 e2 f cw2 kw2
    simp [setup_certificates, h1, h2]

/-- A concrete bootstrap world for the C10 witness: both files present, a
decoder that always raises, absent variables. -/
def bootWorldFilesPresent : BootWorld :=
  { certPemExists := true, keyPemExists := true, certEnv := none,
    keyEnv := none, b64decode := fun _ => none, certWriteOk := false,
    keyWriteOk := false }

/-- Witness for C10: with both files present the step succeeds without any
write even though the decoder would raise and the writes would fail. -/
theorem c10_witness :
    setup_certificates bootWorldFilesPresent = (true, noWrites) :=
  (c10_existing_files_short_circuit bootWorldFilesPresent rfl rfl).1
